import Mathlib

/-!
# Verification of the 1010S robot motion-control program

A shallow embedding of the teleoperation and autonomous control code in
`src/main.cpp` and `src/chassis.cpp`.  Analog axis values and drive scalars
are modelled as exact rationals (`ℚ`); motor velocity commands as integers;
the sequential behaviour of `autonomous()` and of one iteration of the
`opcontrol()` loop as explicit event traces.
-/

/-- `DRIVETRAIN_MODE` from `enums.h`, as used in `main.cpp`. -/
inductive DRIVETRAIN_MODE
  | FAST
  | SLOW
  deriving DecidableEq

/-- `CONTROL_MODE` from `enums.h`, as used in `main.cpp`. -/
inductive CONTROL_MODE
  | ARCADE
  | TANK
  deriving DecidableEq

open DRIVETRAIN_MODE CONTROL_MODE

/-- The `switch (dt_mode)` of `main.cpp` lines 172-177: FAST ↔ SLOW. -/
def toggleDt : DRIVETRAIN_MODE → DRIVETRAIN_MODE
  | FAST => SLOW
  | SLOW => FAST

/-- The `switch (ctrl_mode)` of `main.cpp` lines 186-191: ARCADE ↔ TANK. -/
def toggleCtrl : CONTROL_MODE → CONTROL_MODE
  | ARCADE => TANK
  | TANK => ARCADE

/-- The debounced-toggle pattern of `main.cpp` lines 169-180 (and 183-194):
`sample1` is the button state at the initial read, `sample2` the state at the
re-read taken after the 50 ms `pros::delay`; the mode flips only when both
reads are high.  The re-read happens only when the first read was high. -/
def debouncedToggle {M : Type} (toggle : M → M) (sample1 sample2 : Bool) (m : M) : M :=
  if sample1 then (if sample2 then toggle m else m) else m

/-- Raw analog axes of the V5 controller, each in [-1, 1] native range. -/
structure Axes where
  leftY : ℚ
  leftX : ℚ
  rightX : ℚ
  rightY : ℚ
  deriving DecidableEq

/-- A call into the chassis model: either `arcade(forward, yaw, threshold)`
or `tank(left, right, threshold)`. -/
inductive DriveCall
  | arcade (forward yaw threshold : ℚ)
  | tank (left right threshold : ℚ)
  deriving DecidableEq

/-- The deadband threshold argument carried by a drive call. -/
def DriveCall.threshold : DriveCall → ℚ
  | .arcade _ _ t => t
  | .tank _ _ t => t

/-- `main.cpp` line 214: `double forward = (dt_mode == FAST) ? y : y / 4.0;` -/
def arcadeForward (dt : DRIVETRAIN_MODE) (y : ℚ) : ℚ :=
  match dt with
  | FAST => y
  | SLOW => y / 4

/-- `main.cpp` line 215:
`double yaw = (dt_mode == FAST) ? (left_x / 1.5) + right_x : (left_x / 4.0) + right_x;` -/
def arcadeYaw (dt : DRIVETRAIN_MODE) (left_x right_x : ℚ) : ℚ :=
  match dt with
  | FAST => left_x / 1.5 + right_x
  | SLOW => left_x / 4 + right_x

/-- `main.cpp` lines 225-226: tank-mode per-side scaling. -/
def tankScale (dt : DRIVETRAIN_MODE) (y : ℚ) : ℚ :=
  match dt with
  | FAST => y
  | SLOW => y / 4

/-- The drive section of one teleop iteration, `main.cpp` lines 209-229.
In ARCADE mode the program calls `arcade(forward, yaw, 0.15)`; in TANK mode
it calls `tank(left, right)` with no threshold argument — the okapi
declaration `ChassisModel::tank(double, double, double ithreshold = 0)`
supplies the default 0, which is recorded here explicitly. -/
def driveTick (ctrl : CONTROL_MODE) (dt : DRIVETRAIN_MODE) (a : Axes) : DriveCall :=
  match ctrl with
  | ARCADE => .arcade (arcadeForward dt a.leftY) (arcadeYaw dt a.leftX a.rightX) 0.15
  | TANK => .tank (tankScale dt a.leftY) (tankScale dt a.rightY) 0

/-- Modelled from the spec: the deadband rule of §4.2 / glossary, as
implemented by okapi's `ChassisModel` (not under `src/`): an input magnitude
strictly below the threshold is treated as exactly zero. -/
def applyDeadband (threshold x : ℚ) : ℚ :=
  if |x| < threshold then 0 else x

/-- Clamp a drive scalar to [-1, 1]. -/
def clamp1 (x : ℚ) : ℚ :=
  max (-1) (min 1 x)

/-- Modelled from the spec: okapi `SkidSteerModel::arcade` (not under `src/`),
per §4.2: each input is clamped to [-1,1] and deadbanded, then
`left = forward + yaw`, `right = forward - yaw`, each clamped to [-1,1]. -/
def arcadeModel (forward yaw threshold : ℚ) : ℚ × ℚ :=
  let f := applyDeadband threshold (clamp1 forward)
  let y := applyDeadband threshold (clamp1 yaw)
  (clamp1 (f + y), clamp1 (f - y))

/-- Modelled from the spec: okapi `SkidSteerModel::tank` (not under `src/`),
per §4.2: each side is clamped to [-1,1] and deadbanded, then passed through. -/
def tankModel (left right threshold : ℚ) : ℚ × ℚ :=
  (applyDeadband threshold (clamp1 left), applyDeadband threshold (clamp1 right))

/-- The intake section of one teleop iteration, `main.cpp` lines 235-246:
L1 pressed → 200 (both intakes); else R1 pressed → -200; else 0. -/
def intakeCmd (l1 r1 : Bool) : ℤ :=
  if l1 then 200 else if r1 then -200 else 0

/-- The roller section of one teleop iteration, `main.cpp` lines 252-263:
L2 pressed → 600 (both rollers); else R2 pressed → -600; else 0. -/
def rollerCmd (l2 r2 : Bool) : ℤ :=
  if l2 then 600 else if r2 then -600 else 0

/-- The four implement motors constructed in `main.cpp` (ports in `ports.h`). -/
inductive MotorId
  | intake_l
  | intake_r
  | rollers_front
  | rollers_back
  deriving DecidableEq

/-- A length literal as written in the source: `15_cm`, `-30_in`, ... -/
inductive Len
  | cm (q : ℚ)
  | inch (q : ℚ)
  deriving DecidableEq

/-- An observable action of the program, in program order. -/
inductive Ev
  | setState (x y heading : ℚ)
  | setBrakeMode
  | setMaxVelocity (v : ℚ)
  | moveVelocity (m : MotorId) (v : ℤ)
  | delay (ms : ℕ)
  | moveDistance (d : Len)
  | moveDistanceAsync (d : Len)
  | turnAngle (deg : ℚ)
  | waitUntilSettled
  | drive (c : DriveCall)
  | displayMode
  | displayBattery
  deriving DecidableEq

/-- The odometry pose {x, y, heading}. -/
structure Pose where
  x : ℚ
  y : ℚ
  heading : ℚ
  deriving DecidableEq

/-- The state of the builder-produced `OdomChassisController` that the
embedding tracks: the odometry pose and the closed-loop max velocity. -/
structure ChassisCtl where
  pose : Pose
  maxVelocity : ℚ
  deriving DecidableEq

/-- `cc->setState({x, y, heading})`: the explicit odometry reset. -/
def setState (c : ChassisCtl) (p : Pose) : ChassisCtl :=
  { c with pose := p }

/-- Modelled from the spec: the pose the okapi builder (not under `src/`)
starts odometry from before any explicit reset; left abstract so that the
reset in `build_chassis_controller` is what fixes the pose. -/
def builderPose : Pose := ⟨0, 0, 0⟩

/-- `build_chassis_controller` (`chassis.cpp` lines 3-22): builds the
odometry chassis controller, then resets the odometry state with
`cc->setState({0_in, 0_in, 0_deg})` and returns it.  Paired with the event
trace the construction emits. -/
def build_chassis_controller : ChassisCtl × List Ev :=
  let cc : ChassisCtl := { pose := builderPose, maxVelocity := 1 }
  (setState cc ⟨0, 0, 0⟩, [Ev.setState 0 0 0])

/-- The event trace of `autonomous()` (`main.cpp` lines 54-118), in program
order.  Index 0 is the odometry reset performed inside
`build_chassis_controller`. -/
def autonomousTrace : List Ev :=
  (build_chassis_controller).2 ++
  [Ev.setBrakeMode,                              -- 1
   Ev.setMaxVelocity 100,                        -- 2
   -- 1-point
   Ev.moveVelocity .rollers_front 600,           -- 3
   Ev.moveVelocity .rollers_back 600,            -- 4
   Ev.moveVelocity .intake_l 200,                -- 5
   Ev.moveVelocity .intake_r 200,                -- 6
   Ev.delay 1000,                                -- 7
   Ev.moveVelocity .rollers_front 0,             -- 8
   Ev.moveVelocity .rollers_back 0,              -- 9
   Ev.moveVelocity .intake_l 0,                  -- 10
   Ev.moveVelocity .intake_r 0,                  -- 11
   -- Set up position to intake ball
   Ev.moveDistance (.cm 15),                     -- 12
   Ev.delay 200,                                 -- 13
   Ev.turnAngle 110,                             -- 14
   Ev.setMaxVelocity 200,                        -- 15
   Ev.moveDistance (.cm (-10)),                  -- 16
   Ev.setMaxVelocity 120,                        -- 17
   Ev.delay 300,                                 -- 18
   Ev.moveDistance (.cm 15),                     -- 19
   Ev.delay 200,                                 -- 20
   Ev.turnAngle 102,                             -- 21
   Ev.delay 200,                                 -- 22
   -- Intake ball
   Ev.setMaxVelocity 80,                         -- 23
   Ev.moveDistanceAsync (.cm 30),                -- 24
   Ev.moveVelocity .intake_l 200,                -- 25
   Ev.moveVelocity .intake_r 200,                -- 26
   Ev.waitUntilSettled,                          -- 27
   Ev.delay 200,                                 -- 28
   -- Move back
   Ev.setMaxVelocity 120,                        -- 29
   Ev.moveDistance (.inch (-30)),                -- 30
   Ev.moveVelocity .intake_l 0,                  -- 31
   Ev.moveVelocity .intake_r 0,                  -- 32
   Ev.delay 200,                                 -- 33
   Ev.turnAngle (-15),                           -- 34
   Ev.delay 200,                                 -- 35
   Ev.moveDistance (.inch (-8)),                 -- 36
   -- Shoot!
   Ev.moveVelocity .rollers_front 600,           -- 37
   Ev.moveVelocity .rollers_back 600,            -- 38
   Ev.moveVelocity .intake_l 200,                -- 39
   Ev.moveVelocity .intake_r 200,                -- 40
   Ev.delay 1000,                                -- 41
   Ev.moveVelocity .rollers_front 0,             -- 42
   Ev.moveVelocity .rollers_back 0,              -- 43
   Ev.moveVelocity .intake_l 0,                  -- 44
   Ev.moveVelocity .intake_r 0]                  -- 45

/-- The velocity an event commands to an intake motor, if it is an intake
command. -/
def intakeVelOf : Ev → Option ℤ
  | .moveVelocity .intake_l v => some v
  | .moveVelocity .intake_r v => some v
  | _ => none

/-- One sample of the full controller state consumed by one iteration of the
`opcontrol()` main loop.  For each debounced button (Y, B, A) the iteration
reads the line twice — at the initial check and at the re-check 50 ms later;
the second read only happens when the first was high. -/
structure CtlState where
  Y1 : Bool
  Y2 : Bool
  B1 : Bool
  B2 : Bool
  A1 : Bool
  A2 : Bool
  L1 : Bool
  R1 : Bool
  L2 : Bool
  R2 : Bool
  axes : Axes
  deriving DecidableEq

/-- One iteration of the `opcontrol()` main loop (`main.cpp` lines 163-276):
given the controller sample, the current modes and the LCD counter, returns
the iteration's event trace and the updated modes.  Section order follows the
source: Y toggle, B toggle, manual auton (A), drive, intakes, rollers,
battery telemetry, loop delay. -/
def teleopTick (c : CtlState) (dt : DRIVETRAIN_MODE) (cm : CONTROL_MODE) (count : ℕ) :
    List Ev × DRIVETRAIN_MODE × CONTROL_MODE :=
  let dtNew := debouncedToggle toggleDt c.Y1 c.Y2 dt
  let cmNew := debouncedToggle toggleCtrl c.B1 c.B2 cm
  let yEvents := if c.Y1 then Ev.delay 50 :: (if c.Y2 then [Ev.displayMode] else []) else []
  let bEvents := if c.B1 then Ev.delay 50 :: (if c.B2 then [Ev.displayMode] else []) else []
  let aEvents := if c.A1 then Ev.delay 50 :: (if c.A2 then autonomousTrace else []) else []
  let driveEvents := [Ev.drive (driveTick cmNew dtNew c.axes)]
  let intakeEvents := [Ev.moveVelocity .intake_l (intakeCmd c.L1 c.R1),
                       Ev.moveVelocity .intake_r (intakeCmd c.L1 c.R1)]
  let rollerEvents := [Ev.moveVelocity .rollers_front (rollerCmd c.L2 c.R2),
                       Ev.moveVelocity .rollers_back (rollerCmd c.L2 c.R2)]
  let miscEvents := (if count % 25 = 0 then [Ev.displayBattery] else []) ++ [Ev.delay 10]
  (yEvents ++ bEvents ++ aEvents ++ driveEvents ++ intakeEvents ++ rollerEvents ++ miscEvents,
   dtNew, cmNew)

/-- The drivetrain mode after folding the Y-button debounce step over a
stream of per-iteration (initial read, re-read) sample pairs. -/
def dtAfter (samples : List (Bool × Bool)) (m : DRIVETRAIN_MODE) : DRIVETRAIN_MODE :=
  samples.foldl (fun m s => debouncedToggle toggleDt s.1 s.2 m) m

/-- The control mode after folding the B-button debounce step over a stream
of per-iteration sample pairs. -/
def cmAfter (samples : List (Bool × Bool)) (m : CONTROL_MODE) : CONTROL_MODE :=
  samples.foldl (fun m s => debouncedToggle toggleCtrl s.1 s.2 m) m

/-- The kind of a closed-loop motion goal (§3 of the design). -/
inductive MotionKind
  | Distance
  | Turn
  deriving DecidableEq

/-- Modelled from the spec: a `MotionGoal` (§3) — the okapi controller code
that manages goals is not under `src/`. -/
structure MotionGoal where
  kind : MotionKind
  magnitude : ℚ
  deriving DecidableEq

/-- The error taxonomy of §7 relevant to motion requests. -/
inductive MotionError
  | ConcurrentMotionError
  | MotionTimeout
  deriving DecidableEq

/-- Modelled from the spec: the per-controller motion bookkeeping (§3, §5) —
at most one goal outstanding; the okapi implementation is not under `src/`. -/
structure MotionState where
  activeGoal : Option MotionGoal
  deriving DecidableEq

/-- Modelled from the spec (§5, §7): issuing an asynchronous motion goal.
If a goal is already outstanding the request fails immediately with
`ConcurrentMotionError` and the controller state is left unchanged (the
request is rejected, not queued); otherwise the goal becomes active. -/
def issueAsyncGoal (s : MotionState) (g : MotionGoal) : MotionState × Except MotionError Unit :=
  match s.activeGoal with
  | some _ => (s, Except.error MotionError.ConcurrentMotionError)
  | none => ({ activeGoal := some g }, Except.ok ())

/-- Whether an event is a write to the odometry pose. -/
def isSetState : Ev → Bool
  | .setState _ _ _ => true
  | _ => false

/-- A concrete controller sample: only the manual-auton button A held, high
at both the initial read and the 50 ms re-read, sticks centered. -/
def heldA : CtlState :=
  ⟨false, false, false, false, true, true, false, false, false, false, ⟨0, 0, 0, 0⟩⟩

/-- **C1**: with raw forward 1.0, left-stick turn 0.6 and right-stick turn 0,
the arcade input mapping yields forward 1, turn 0.4 = 0.6/1.5 in FAST mode,
and forward 0.25, turn 0.15 (each raw value divided by 4) in SLOW mode. -/
theorem C1_speed_mode_scaling :
    driveTick ARCADE FAST ⟨1, 0.6, 0, 0⟩ = .arcade 1 0.4 0.15 ∧
    driveTick ARCADE SLOW ⟨1, 0.6, 0, 0⟩ = .arcade 0.25 0.15 0.15 := by
  constructor <;> · show DriveCall.arcade _ _ _ = _
                    norm_num [arcadeForward, arcadeYaw]

/-- **C4**: for each debounced toggle button, two confirmed presses return
the mode to its original value (the toggle is a two-state involution), and a
press not observed high at both samples leaves the mode unchanged. -/
theorem C4_toggle_round_trip :
    (∀ m, debouncedToggle toggleDt true true (debouncedToggle toggleDt true true m) = m) ∧
    (∀ m, debouncedToggle toggleCtrl true true (debouncedToggle toggleCtrl true true m) = m) ∧
    (∀ s1 s2 m, ¬(s1 = true ∧ s2 = true) → debouncedToggle toggleDt s1 s2 m = m) ∧
    (∀ s1 s2 m, ¬(s1 = true ∧ s2 = true) → debouncedToggle toggleCtrl s1 s2 m = m) := by
  refine ⟨fun m => by cases m <;> rfl, fun m => by cases m <;> rfl, ?_, ?_⟩ <;>
    · intro s1 s2 m h
      cases s1 <;> cases s2 <;> simp_all [debouncedToggle]

/-- Witness for **C4**: a press high at the first sample but low at the
re-sample leaves the drivetrain mode unchanged. -/
theorem C4_toggle_round_trip_witness :
    debouncedToggle toggleDt true false FAST = FAST :=
  C4_toggle_round_trip.2.2.1 true false FAST (by simp)

/-- **C5**: in ARCADE mode the FAST-scaled primary turn axis and the raw
secondary turn axis are summed (`left_x / 1.5 + right_x`) and the sum is
handed to `arcade` without re-clamping: with both sticks at full deflection
the yaw argument is 5/3, of magnitude greater than 1. -/
theorem C5_unclamped_dual_yaw :
    (∀ lx rx : ℚ, arcadeYaw FAST lx rx = lx / 1.5 + rx) ∧
    driveTick ARCADE FAST ⟨0, 1, 1, 0⟩ = .arcade 0 (5 / 3) 0.15 ∧
    1 < |(5 / 3 : ℚ)| := by
  refine ⟨fun lx rx => rfl, ?_, by rw [abs_of_pos (by norm_num)]; norm_num⟩
  show DriveCall.arcade _ _ _ = _
  norm_num [arcadeForward, arcadeYaw]

/-- **C9**: the debounced toggles keep no per-button edge state — whenever a
toggle button reads high at both samples of an iteration, the mode flips, so
holding a button toggles the mode on every iteration (`n` held iterations
apply the toggle `n` times). -/
theorem C9_no_edge_state :
    (∀ m, debouncedToggle toggleDt true true m = toggleDt m) ∧
    (∀ m, debouncedToggle toggleCtrl true true m = toggleCtrl m) ∧
    (∀ n m, dtAfter (List.replicate n (true, true)) m = toggleDt^[n] m) ∧
    (∀ n m, cmAfter (List.replicate n (true, true)) m = toggleCtrl^[n] m) := by
  refine ⟨fun m => rfl, fun m => rfl, ?_, ?_⟩ <;>
    · intro n
      induction n with
      | zero => intro m; rfl
      | succ k ih =>
          intro m
          rw [List.replicate_succ, Function.iterate_succ_apply]
          exact ih _

/-- **C10**: on every teleop tick the intakes are commanded by fixed
priority — L1 gives 200 regardless of R1, otherwise R1 gives -200, otherwise
0 — and the rollers likewise with L2/R2 at ±600; the commands for the
sampled button state are part of that same tick's trace. -/
theorem C10_actuator_buttons :
    (∀ r1, intakeCmd true r1 = 200) ∧
    intakeCmd false true = -200 ∧
    intakeCmd false false = 0 ∧
    (∀ r2, rollerCmd true r2 = 600) ∧
    rollerCmd false true = -600 ∧
    rollerCmd false false = 0 ∧
    (∀ c dt cm count,
      Ev.moveVelocity .intake_l (intakeCmd c.L1 c.R1) ∈ (teleopTick c dt cm count).1 ∧
      Ev.moveVelocity .intake_r (intakeCmd c.L1 c.R1) ∈ (teleopTick c dt cm count).1 ∧
      Ev.moveVelocity .rollers_front (rollerCmd c.L2 c.R2) ∈ (teleopTick c dt cm count).1 ∧
      Ev.moveVelocity .rollers_back (rollerCmd c.L2 c.R2) ∈ (teleopTick c dt cm count).1) := by
  refine ⟨by decide, by decide, by decide, by decide, by decide, by decide, ?_⟩
  intro c dt cm count
  refine ⟨?_, ?_, ?_, ?_⟩ <;> simp [teleopTick]

/-- Membership in a conditional list whose alternative is empty implies
membership in the list. -/
theorem mem_of_mem_ite_nil {α : Type} {e : α} {p : Prop} [Decidable p] {l : List α}
    (h : e ∈ (if p then l else [])) : e ∈ l := by
  by_cases hp : p
  · simpa [hp] using h
  · simp [hp] at h

/-- Any event of a teleop iteration is a debounce delay, a display update,
an event of the nested autonomous call, the tick's drive call, one of the
tick's four actuator commands, the battery telemetry, or the loop delay. -/
theorem teleopTick_mem_cases (c : CtlState) (dt : DRIVETRAIN_MODE) (cm : CONTROL_MODE)
    (count : ℕ) (e : Ev) (he : e ∈ (teleopTick c dt cm count).1) :
    e = Ev.delay 50 ∨ e = Ev.displayMode ∨ e ∈ autonomousTrace ∨
    e = Ev.drive (driveTick (debouncedToggle toggleCtrl c.B1 c.B2 cm)
          (debouncedToggle toggleDt c.Y1 c.Y2 dt) c.axes) ∨
    e = Ev.moveVelocity .intake_l (intakeCmd c.L1 c.R1) ∨
    e = Ev.moveVelocity .intake_r (intakeCmd c.L1 c.R1) ∨
    e = Ev.moveVelocity .rollers_front (rollerCmd c.L2 c.R2) ∨
    e = Ev.moveVelocity .rollers_back (rollerCmd c.L2 c.R2) ∨
    e = Ev.displayBattery ∨ e = Ev.delay 10 := by
  replace he : e ∈
      (if c.Y1 then Ev.delay 50 :: (if c.Y2 then [Ev.displayMode] else []) else []) ++
      (if c.B1 then Ev.delay 50 :: (if c.B2 then [Ev.displayMode] else []) else []) ++
      (if c.A1 then Ev.delay 50 :: (if c.A2 then autonomousTrace else []) else []) ++
      [Ev.drive (driveTick (debouncedToggle toggleCtrl c.B1 c.B2 cm)
          (debouncedToggle toggleDt c.Y1 c.Y2 dt) c.axes)] ++
      [Ev.moveVelocity .intake_l (intakeCmd c.L1 c.R1),
        Ev.moveVelocity .intake_r (intakeCmd c.L1 c.R1)] ++
      [Ev.moveVelocity .rollers_front (rollerCmd c.L2 c.R2),
        Ev.moveVelocity .rollers_back (rollerCmd c.L2 c.R2)] ++
      ((if count % 25 = 0 then [Ev.displayBattery] else []) ++ [Ev.delay 10]) := he
  simp only [List.append_assoc] at he
  rcases List.mem_append.1 he with h | he
  · rcases List.mem_cons.1 (mem_of_mem_ite_nil h) with h1 | h1
    · exact Or.inl h1
    · exact Or.inr (Or.inl (List.mem_singleton.1 (mem_of_mem_ite_nil h1)))
  rcases List.mem_append.1 he with h | he
  · rcases List.mem_cons.1 (mem_of_mem_ite_nil h) with h1 | h1
    · exact Or.inl h1
    · exact Or.inr (Or.inl (List.mem_singleton.1 (mem_of_mem_ite_nil h1)))
  rcases List.mem_append.1 he with h | he
  · rcases List.mem_cons.1 (mem_of_mem_ite_nil h) with h1 | h1
    · exact Or.inl h1
    · exact Or.inr (Or.inr (Or.inl (mem_of_mem_ite_nil h1)))
  rcases List.mem_append.1 he with h | he
  · exact Or.inr (Or.inr (Or.inr (Or.inl (List.mem_singleton.1 h))))
  rcases List.mem_append.1 he with h | he
  · rcases List.mem_cons.1 h with h1 | h1
    · exact Or.inr (Or.inr (Or.inr (Or.inr (Or.inl h1))))
    · exact Or.inr (Or.inr (Or.inr (Or.inr (Or.inr (Or.inl (List.mem_singleton.1 h1))))))
  rcases List.mem_append.1 he with h | he
  · rcases List.mem_cons.1 h with h1 | h1
    · exact Or.inr (Or.inr (Or.inr (Or.inr (Or.inr (Or.inr (Or.inl h1))))))
    · exact Or.inr (Or.inr (Or.inr (Or.inr (Or.inr (Or.inr (Or.inr
        (Or.inl (List.mem_singleton.1 h1))))))))
  rcases List.mem_append.1 he with h | h
  · exact Or.inr (Or.inr (Or.inr (Or.inr (Or.inr (Or.inr (Or.inr (Or.inr
      (Or.inl (List.mem_singleton.1 (mem_of_mem_ite_nil h))))))))))
  · exact Or.inr (Or.inr (Or.inr (Or.inr (Or.inr (Or.inr (Or.inr (Or.inr
      (Or.inr (List.mem_singleton.1 h)))))))))

/-- **C2**, counterexample: in TANK mode the drive signal is handed to
`tank` with threshold 0, not 0.15, and a component of magnitude 0.1 < 0.15
reaches the sides unchanged instead of being treated as zero. -/
theorem C2_counterexample :
    (driveTick TANK FAST ⟨0.1, 0, 0, 0.1⟩).threshold = 0 ∧
    (0 : ℚ) ≠ 0.15 ∧
    |(0.1 : ℚ)| < 0.15 ∧
    tankModel 0.1 0.1 ((driveTick TANK FAST ⟨0.1, 0, 0, 0.1⟩).threshold) = (0.1, 0.1) ∧
    (0.1 : ℚ) ≠ 0 := by
  refine ⟨rfl, by norm_num, by rw [abs_of_pos] <;> norm_num, ?_, by norm_num⟩
  show tankModel 0.1 0.1 0 = (0.1, 0.1)
  norm_num [tankModel, applyDeadband, clamp1, abs_nonneg]

/-- **C2**, amended: the fixed 0.15 deadband is passed with the drive signal
only in ARCADE mode; in TANK mode `tank` is called without a threshold
argument, so the okapi default 0 applies and no input component is zeroed. -/
theorem C2_deadband_amended (dt : DRIVETRAIN_MODE) (a : Axes) (x : ℚ)
    (hx : |x| < 0.15) :
    (driveTick ARCADE dt a).threshold = 0.15 ∧
    (driveTick TANK dt a).threshold = 0 ∧
    applyDeadband 0.15 x = 0 ∧
    (∀ y : ℚ, applyDeadband 0 y = y) := by
  refine ⟨rfl, rfl, ?_, ?_⟩
  · simp [applyDeadband, hx]
  · intro y
    simp [applyDeadband, not_lt.mpr (abs_nonneg y)]

/-- Witness for **C2** (amended): at `x = 0.1` the hypothesis `|x| < 0.15`
holds and the amended statement follows. -/
theorem C2_deadband_amended_witness :
    (driveTick ARCADE FAST ⟨0, 0, 0, 0⟩).threshold = 0.15 ∧
    (driveTick TANK FAST ⟨0, 0, 0, 0⟩).threshold = 0 ∧
    applyDeadband 0.15 0.1 = 0 ∧
    (∀ y : ℚ, applyDeadband 0 y = y) :=
  C2_deadband_amended FAST ⟨0, 0, 0, 0⟩ 0.1 (by rw [abs_of_pos] <;> norm_num)

/-- **C3**: in the autonomous trace, the async 30 cm motion (index 24) is
followed by the intake-200 commands (25, 26) and `waitUntilSettled` (27);
strictly between issue and settle every intake command is 200, and after the
issue an intake command of 0 occurs only after the settle point. -/
theorem C3_async_overlap :
    autonomousTrace[24]? = some (Ev.moveDistanceAsync (.cm 30)) ∧
    autonomousTrace[25]? = some (Ev.moveVelocity .intake_l 200) ∧
    autonomousTrace[26]? = some (Ev.moveVelocity .intake_r 200) ∧
    autonomousTrace[27]? = some Ev.waitUntilSettled ∧
    (∀ k ∈ List.range autonomousTrace.length, 24 < k → k < 27 →
      intakeVelOf (autonomousTrace.getD k (Ev.delay 0)) = some 200 ∨
      intakeVelOf (autonomousTrace.getD k (Ev.delay 0)) = none) ∧
    (∀ k ∈ List.range autonomousTrace.length,
      intakeVelOf (autonomousTrace.getD k (Ev.delay 0)) = some 0 → 24 < k → 27 < k) := by
  decide

/-- Witness for **C3**: at index 25, strictly between issue and settle, the
intake command is 200. -/
theorem C3_async_overlap_witness :
    intakeVelOf (autonomousTrace.getD 25 (Ev.delay 0)) = some 200 ∨
    intakeVelOf (autonomousTrace.getD 25 (Ev.delay 0)) = none :=
  C3_async_overlap.2.2.2.2.1 25 (by decide) (by decide) (by decide)

/-- **C6**: when button A is confirmed through the debounce re-read, the
whole autonomous trace runs inside the tick, preceded only by debounce
delays and mode-display events, with the tick's drive call, actuator
commands and telemetry all occurring after the autonomous trace ends. -/
theorem C6_manual_auton_blocks (c : CtlState) (dt : DRIVETRAIN_MODE) (cm : CONTROL_MODE)
    (count : ℕ) (h1 : c.A1 = true) (h2 : c.A2 = true) :
    ∃ pre post,
      (teleopTick c dt cm count).1 = pre ++ (Ev.delay 50 :: autonomousTrace) ++ post ∧
      (∀ e ∈ pre, e = Ev.delay 50 ∨ e = Ev.displayMode) ∧
      post = Ev.drive (driveTick (debouncedToggle toggleCtrl c.B1 c.B2 cm)
               (debouncedToggle toggleDt c.Y1 c.Y2 dt) c.axes) ::
             Ev.moveVelocity .intake_l (intakeCmd c.L1 c.R1) ::
             Ev.moveVelocity .intake_r (intakeCmd c.L1 c.R1) ::
             Ev.moveVelocity .rollers_front (rollerCmd c.L2 c.R2) ::
             Ev.moveVelocity .rollers_back (rollerCmd c.L2 c.R2) ::
             ((if count % 25 = 0 then [Ev.displayBattery] else []) ++ [Ev.delay 10]) := by
  refine ⟨(if c.Y1 then Ev.delay 50 :: (if c.Y2 then [Ev.displayMode] else []) else []) ++
          (if c.B1 then Ev.delay 50 :: (if c.B2 then [Ev.displayMode] else []) else []),
          _, ?_, ?_, rfl⟩
  · simp [teleopTick, h1, h2]
  · intro e he
    rcases List.mem_append.1 he with h | h <;>
      rcases List.mem_cons.1 (mem_of_mem_ite_nil h) with h1 | h1
    · exact Or.inl h1
    · exact Or.inr (List.mem_singleton.1 (mem_of_mem_ite_nil h1))
    · exact Or.inl h1
    · exact Or.inr (List.mem_singleton.1 (mem_of_mem_ite_nil h1))

/-- Witness for **C6**: the decomposition at a concrete sample holding only
button A, in FAST/ARCADE with counter 0. -/
theorem C6_manual_auton_blocks_witness :
    ∃ pre post,
      (teleopTick heldA FAST ARCADE 0).1 = pre ++ (Ev.delay 50 :: autonomousTrace) ++ post ∧
      (∀ e ∈ pre, e = Ev.delay 50 ∨ e = Ev.displayMode) ∧
      post = Ev.drive (driveTick (debouncedToggle toggleCtrl heldA.B1 heldA.B2 ARCADE)
               (debouncedToggle toggleDt heldA.Y1 heldA.Y2 FAST) heldA.axes) ::
             Ev.moveVelocity .intake_l (intakeCmd heldA.L1 heldA.R1) ::
             Ev.moveVelocity .intake_r (intakeCmd heldA.L1 heldA.R1) ::
             Ev.moveVelocity .rollers_front (rollerCmd heldA.L2 heldA.R2) ::
             Ev.moveVelocity .rollers_back (rollerCmd heldA.L2 heldA.R2) ::
             ((if 0 % 25 = 0 then [Ev.displayBattery] else []) ++ [Ev.delay 10]) :=
  C6_manual_auton_blocks heldA FAST ARCADE 0 rfl rfl

/-- **C7**: issuing a second asynchronous motion goal while one is
outstanding fails immediately with `ConcurrentMotionError`; the controller
state — in particular the active goal — is unchanged, so the first motion
continues unaffected and nothing is queued. -/
theorem C7_concurrent_rejection (s : MotionState) (g0 g : MotionGoal)
    (h : s.activeGoal = some g0) :
    (issueAsyncGoal s g).2 = Except.error MotionError.ConcurrentMotionError ∧
    (issueAsyncGoal s g).1 = s ∧
    (issueAsyncGoal s g).1.activeGoal = some g0 := by
  rcases s with ⟨ag⟩
  rcases ag with _ | g1
  · exact absurd h (by simp)
  · exact ⟨rfl, rfl, h⟩

/-- Witness for **C7**: a controller with an outstanding 30-unit distance
goal rejects a new turn goal and keeps the first goal active. -/
theorem C7_concurrent_rejection_witness :
    (issueAsyncGoal ⟨some ⟨MotionKind.Distance, 30⟩⟩ ⟨MotionKind.Turn, 90⟩).2 =
        Except.error MotionError.ConcurrentMotionError ∧
    (issueAsyncGoal ⟨some ⟨MotionKind.Distance, 30⟩⟩ ⟨MotionKind.Turn, 90⟩).1 =
        ⟨some ⟨MotionKind.Distance, 30⟩⟩ ∧
    (issueAsyncGoal ⟨some ⟨MotionKind.Distance, 30⟩⟩ ⟨MotionKind.Turn, 90⟩).1.activeGoal =
        some ⟨MotionKind.Distance, 30⟩ :=
  C7_concurrent_rejection ⟨some ⟨MotionKind.Distance, 30⟩⟩ ⟨MotionKind.Distance, 30⟩
    ⟨MotionKind.Turn, 90⟩ rfl

/-- **C8**: `build_chassis_controller` resets the pose to (0, 0, 0°) before
returning; in the autonomous trace the only pose write is that construction
reset (its index 0), and in any teleop iteration every pose write is that
same construction reset performed by the nested autonomous call. -/
theorem C8_pose_reset :
    (build_chassis_controller).1.pose = ⟨0, 0, 0⟩ ∧
    (build_chassis_controller).2 = [Ev.setState 0 0 0] ∧
    autonomousTrace.filter isSetState = [Ev.setState 0 0 0] ∧
    autonomousTrace[0]? = some (Ev.setState 0 0 0) ∧
    (∀ c dt cm count e, e ∈ (teleopTick c dt cm count).1 → isSetState e = true →
      e = Ev.setState 0 0 0) := by
  refine ⟨rfl, rfl, by decide, rfl, ?_⟩
  intro c dt cm count e he hss
  have haux : ∀ x ∈ autonomousTrace, isSetState x = true → x = Ev.setState 0 0 0 := by decide
  rcases teleopTick_mem_cases c dt cm count e he with
    h | h | h | h | h | h | h | h | h | h
  · simp [h, isSetState] at hss
  · simp [h, isSetState] at hss
  · exact haux e h hss
  all_goals simp [h, isSetState] at hss

/-- Witness for **C8**: in the tick that confirms the manual-auton button,
the construction reset event occurs and is the pose write (0, 0, 0°). -/
theorem C8_pose_reset_witness :
    Ev.setState 0 0 0 ∈ (teleopTick heldA FAST ARCADE 0).1 ∧
    Ev.setState 0 0 0 = Ev.setState 0 0 0 :=
  ⟨by decide, C8_pose_reset.2.2.2.2 heldA FAST ARCADE 0 (Ev.setState 0 0 0) (by decide) rfl⟩
